import Mathlib

/-!
Verification of the chat front-end's state-management core
(`src/components/chat-interface.tsx`) and the prompt-routing flow
(`src/ai/flows/smart-assistant-prompting.ts`).

The TypeScript code is shallowly embedded: React `setState` updaters become
pure functions on explicit state values, the browser `localStorage` becomes an
explicit record of the four persisted keys, `Date.now()` / generated random
ids become parameters, and JS numbers are modelled as exact rationals.
JS strings are modelled through their character lists.
-/

/-- JS `String.prototype.startsWith`, over the character-list model. -/
def jsStartsWith (s p : String) : Bool :=
  decide (s.data.take p.data.length = p.data)

/-- JS `String.prototype.includes`, over the character-list model. -/
def jsIncludes (s sub : String) : Bool :=
  (List.range (s.data.length + 1)).any fun i =>
    decide ((s.data.drop i).take sub.data.length = sub.data)

/-- JS `s.substring(0, n)`, over the character-list model. -/
def jsSubstring (s : String) (n : Nat) : String :=
  ⟨s.data.take n⟩

/-- JS `x || d` for an optional string (`undefined` and `""` are falsy). -/
def jsOrString (x : Option String) (d : String) : String :=
  match x with
  | some v => if v = "" then d else v
  | none => d

/-- JS `x || 0`-style fallback for an optional number (`0` is falsy). -/
def jsOrRat (x : Option ℚ) (d : ℚ) : ℚ :=
  match x with
  | some v => if v = 0 then d else v
  | none => d

/-- JS `x || d` for an optional timestamp (`0` is falsy). -/
def jsOrNat (x : Option Nat) (d : Nat) : Nat :=
  match x with
  | some v => if v = 0 then d else v
  | none => d

/-- JS `x || false` for an optional boolean. -/
def jsOrBool (x : Option Bool) (d : Bool) : Bool :=
  match x with
  | some v => v || d
  | none => d

/-- JS `x || null` for an optional-string field (`""` is falsy and maps to null). -/
def jsOrNull (x : Option String) : Option String :=
  match x with
  | some v => if v = "" then none else some v
  | none => none

-- Constants from chat-interface.tsx.

def DEFAULT_SESSION_NAME : String := "New Chat"

def MAX_SESSION_NAME_LENGTH : Nat := 50

def SESSION_NAME_TRUNCATE_LENGTH : Nat := 30

def MAX_SELECTABLE_OPENROUTER_MODELS : Nat := 20

-- Data model from chat-interface.tsx.

/-- `provider` field of `AIModelInfo`: `'google' | 'openrouter'`. -/
inductive ModelProvider where
  | google
  | openrouter
deriving DecidableEq, Repr

/-- `sender` field of `Message`: `'user' | 'ai'`. -/
inductive Sender where
  | user
  | ai
deriving DecidableEq, Repr

/-- Attachment descriptor `{ name: string; dataUri: string }`. -/
structure MsgFile where
  name : String
  dataUri : String
deriving DecidableEq, Repr

/-- The `Message` interface.  Optional TS fields become `Option`; the
optional boolean `isError` is modelled as `Bool` (absent = `false`). -/
structure Message where
  id : String
  sender : Sender
  text : String
  file : Option MsgFile
  cost : Option ℚ
  timestamp : Nat
  modelId : Option String
  isError : Bool
  thinkingSteps : Option (List String)
deriving DecidableEq, Repr

/-- The `AIModelInfo` interface. -/
structure AIModelInfo where
  id : String
  name : String
  provider : ModelProvider
  context_length : Option Nat
deriving DecidableEq, Repr

/-- The fields of `OpenRouterApiModel` the state machine consumes. -/
structure OpenRouterApiModel where
  id : String
  name : String
  context_length : Nat
deriving DecidableEq, Repr

/-- The `ChatSession` interface.  `folderId : string | null` and the optional
fields collapse to `Option`/defaults as in the boot-time normalization. -/
structure ChatSession where
  id : String
  name : String
  messages : List Message
  createdAt : Nat
  lastModified : Nat
  totalCost : ℚ
  modelId : Option String
  folderId : Option String
  isBookmarked : Bool
  tags : List String
deriving DecidableEq, Repr

/-- `DEFAULT_GOOGLE_MODELS`. -/
def DEFAULT_GOOGLE_MODELS : List AIModelInfo :=
  [{ id := "googleai/gemini-2.0-flash", name := "Google Gemini 2.0 Flash",
     provider := ModelProvider.google, context_length := none }]

-- Pricing simulation (chat-interface.tsx lines 120-152).

def COST_PER_INPUT_CHAR_DEFAULT : ℚ := 0.000005

def COST_PER_OUTPUT_CHAR_DEFAULT : ℚ := 0.000015

def COST_PER_FILE_ANALYSIS_GOOGLE : ℚ := 0.01

/-- `calculateCost` (the spec's `estimateCost`): tiered per-character rates
selected by an ordered rule list over the model id, plus a flat file
surcharge keyed on the provider tag. -/
def calculateCost (modelId : String) (inputLength outputLength : Nat)
    (hasFile : Bool) : ℚ :=
  let rates : ℚ × ℚ :=
    if jsIncludes modelId "gpt-4" || jsIncludes modelId "claude-3-opus" ||
        jsIncludes modelId "gemini-1.5-pro" then
      (0.000015, 0.000045)
    else if jsIncludes modelId "claude-3-sonnet" || jsIncludes modelId "gpt-4o" ||
        jsIncludes modelId "gemini-1.5-flash" then
      (0.000005, 0.000015)
    else if jsStartsWith modelId "googleai/gemini-2.0-flash" then
      (0.000001, 0.000002)
    else if jsStartsWith modelId "openrouter/" then
      (0.000002, 0.000006)
    else
      (COST_PER_INPUT_CHAR_DEFAULT, COST_PER_OUTPUT_CHAR_DEFAULT)
  let fileCost : ℚ :=
    if hasFile && jsStartsWith modelId "googleai/" then COST_PER_FILE_ANALYSIS_GOOGLE
    else if hasFile && jsStartsWith modelId "openrouter/" then 0.005
    else 0
  inputLength * rates.1 + outputLength * rates.2 + fileCost

/-- The flat file surcharge of `calculateCost`, as a standalone function of
the model id (lines 148-149): 0.01 for the first-party tag, 0.005 for the
aggregator tag, 0 otherwise. -/
def fileSurcharge (modelId : String) : ℚ :=
  if jsStartsWith modelId "googleai/" then COST_PER_FILE_ANALYSIS_GOOGLE
  else if jsStartsWith modelId "openrouter/" then 0.005
  else 0

/-- C7: `calculateCost` on the aggregator id `openrouter/mistral-7b` and the
first-party default `googleai/gemini-2.0-flash` with input length 100,
output length 200 and no file yields 0.0014 and 0.0005 respectively —
different and both strictly positive; with zero-length input and output the
result is the file surcharge when a file is present and exactly 0 otherwise;
and the result is always nonnegative. -/
theorem calculateCost_spec :
    calculateCost "openrouter/mistral-7b" 100 200 false = 0.0014 ∧
    calculateCost "googleai/gemini-2.0-flash" 100 200 false = 0.0005 ∧
    0 < calculateCost "openrouter/mistral-7b" 100 200 false ∧
    0 < calculateCost "googleai/gemini-2.0-flash" 100 200 false ∧
    calculateCost "openrouter/mistral-7b" 100 200 false ≠
      calculateCost "googleai/gemini-2.0-flash" 100 200 false ∧
    (∀ modelId hasFile,
      calculateCost modelId 0 0 hasFile = if hasFile then fileSurcharge modelId else 0) ∧
    (∀ modelId inputLength outputLength hasFile,
      0 ≤ calculateCost modelId inputLength outputLength hasFile) := by
  have t1 : (jsIncludes "openrouter/mistral-7b" "gpt-4" ||
      jsIncludes "openrouter/mistral-7b" "claude-3-opus" ||
      jsIncludes "openrouter/mistral-7b" "gemini-1.5-pro") = false := by decide
  have t2 : (jsIncludes "openrouter/mistral-7b" "claude-3-sonnet" ||
      jsIncludes "openrouter/mistral-7b" "gpt-4o" ||
      jsIncludes "openrouter/mistral-7b" "gemini-1.5-flash") = false := by decide
  have t3 : jsStartsWith "openrouter/mistral-7b" "googleai/gemini-2.0-flash" = false := by
    decide
  have t4 : jsStartsWith "openrouter/mistral-7b" "openrouter/" = true := by decide
  have g1 : (jsIncludes "googleai/gemini-2.0-flash" "gpt-4" ||
      jsIncludes "googleai/gemini-2.0-flash" "claude-3-opus" ||
      jsIncludes "googleai/gemini-2.0-flash" "gemini-1.5-pro") = false := by decide
  have g2 : (jsIncludes "googleai/gemini-2.0-flash" "claude-3-sonnet" ||
      jsIncludes "googleai/gemini-2.0-flash" "gpt-4o" ||
      jsIncludes "googleai/gemini-2.0-flash" "gemini-1.5-flash") = false := by decide
  have g3 : jsStartsWith "googleai/gemini-2.0-flash" "googleai/gemini-2.0-flash" = true := by
    decide
  have h1 : calculateCost "openrouter/mistral-7b" 100 200 false = 0.0014 := by
    simp [calculateCost, t1, t2, t3, t4]
    norm_num
  have h2 : calculateCost "googleai/gemini-2.0-flash" 100 200 false = 0.0005 := by
    simp [calculateCost, g1, g2, g3]
    norm_num
  refine ⟨h1, h2, by rw [h1]; norm_num, by rw [h2]; norm_num,
    by rw [h1, h2]; norm_num, ?_, ?_⟩
  · intro modelId hasFile
    cases hasFile
    · simp [calculateCost, fileSurcharge]
    · simp [calculateCost, fileSurcharge]
  · intro modelId inputLength outputLength hasFile
    unfold calculateCost
    dsimp only
    split_ifs <;>
      simp only [COST_PER_INPUT_CHAR_DEFAULT, COST_PER_OUTPUT_CHAR_DEFAULT,
        COST_PER_FILE_ANALYSIS_GOOGLE] <;>
      positivity

-- Model registry (chat-interface.tsx lines 532-598, 790-841).
-- A JS `Set<string>` is modelled as an insertion-ordered duplicate-free list:
-- `add` appends when absent, `delete` removes, `size` is the length, and
-- `Array.from` is the identity.

/-- `calculateActiveModels(selectedIds, allFetchedModels)`: catalog entries
whose id is selected, mapped to prefixed `AIModelInfo`, truncated to the cap,
appended after the fixed default Google models. -/
def calculateActiveModels (selectedIds : List String)
    (allFetchedModels : List OpenRouterApiModel) : List AIModelInfo :=
  let selectedOpenRouterModels :=
    (allFetchedModels.filter fun model => model.id ∈ selectedIds).map fun model =>
      { id := "openrouter/" ++ model.id, name := model.name,
        provider := ModelProvider.openrouter,
        context_length := some model.context_length : AIModelInfo }
  let limitedOpenRouterModels :=
    selectedOpenRouterModels.take MAX_SELECTABLE_OPENROUTER_MODELS
  DEFAULT_GOOGLE_MODELS ++ limitedOpenRouterModels

/-- The `AIModelInfo` built from a catalog entry by `calculateActiveModels`. -/
def toActiveModel (model : OpenRouterApiModel) : AIModelInfo :=
  { id := "openrouter/" ++ model.id, name := model.name,
    provider := ModelProvider.openrouter, context_length := some model.context_length }

/-- `handleModelSelectionChange(modelId, checked)` on the selection set:
add below the cap, reject (returning the previous set unchanged) at the cap,
delete when unchecked. -/
def handleModelSelectionChange (prev : List String) (modelId : String)
    (checked : Bool) : List String :=
  if checked then
    if prev.length < MAX_SELECTABLE_OPENROUTER_MODELS then
      if modelId ∈ prev then prev else prev ++ [modelId]
    else
      prev
  else
    prev.erase modelId

/-- `handleSelectAllFilteredModels`: add each filtered model while the set is
below the cap. -/
def handleSelectAllFilteredModels (prev : List String)
    (filteredModels : List OpenRouterApiModel) : List String :=
  filteredModels.foldl
    (fun newSet model =>
      if newSet.length < MAX_SELECTABLE_OPENROUTER_MODELS ∧ model.id ∉ newSet then
        newSet ++ [model.id]
      else
        newSet)
    prev

/-- `handleDeselectAllFilteredModels`: delete each filtered model. -/
def handleDeselectAllFilteredModels (prev : List String)
    (filteredModels : List OpenRouterApiModel) : List String :=
  filteredModels.foldl (fun newSet model => newSet.erase model.id) prev

/-- One user action on the selection set. -/
inductive SelectionOp where
  | change (modelId : String) (checked : Bool)
  | selectAll (filteredModels : List OpenRouterApiModel)
  | deselectAll (filteredModels : List OpenRouterApiModel)

/-- Apply one selection action. -/
def applySelectionOp (prev : List String) : SelectionOp → List String
  | SelectionOp.change modelId checked => handleModelSelectionChange prev modelId checked
  | SelectionOp.selectAll filteredModels => handleSelectAllFilteredModels prev filteredModels
  | SelectionOp.deselectAll filteredModels =>
      handleDeselectAllFilteredModels prev filteredModels

/-- Apply a sequence of selection actions. -/
def applySelectionOps (prev : List String) (ops : List SelectionOp) : List String :=
  ops.foldl applySelectionOp prev

lemma handleSelectAllFilteredModels_length_le (prev : List String)
    (filteredModels : List OpenRouterApiModel)
    (h : prev.length ≤ MAX_SELECTABLE_OPENROUTER_MODELS) :
    (handleSelectAllFilteredModels prev filteredModels).length ≤
      MAX_SELECTABLE_OPENROUTER_MODELS := by
  induction filteredModels generalizing prev with
  | nil => exact h
  | cons m ms ih =>
    simp only [handleSelectAllFilteredModels, List.foldl_cons] at *
    by_cases hc : prev.length < MAX_SELECTABLE_OPENROUTER_MODELS ∧ m.id ∉ prev
    · rw [if_pos hc]
      exact ih _ (by simpa using Nat.succ_le_of_lt hc.1)
    · rw [if_neg hc]
      exact ih _ h

lemma applySelectionOp_length_le (prev : List String) (op : SelectionOp)
    (h : prev.length ≤ MAX_SELECTABLE_OPENROUTER_MODELS) :
    (applySelectionOp prev op).length ≤ MAX_SELECTABLE_OPENROUTER_MODELS := by
  cases op with
  | change modelId checked =>
    cases checked with
    | false =>
      simp only [applySelectionOp, handleModelSelectionChange, Bool.false_eq_true,
        if_false]
      exact le_trans (List.erase_sublist modelId prev).length_le h
    | true =>
      simp only [applySelectionOp, handleModelSelectionChange, if_true]
      by_cases hlt : prev.length < MAX_SELECTABLE_OPENROUTER_MODELS
      · rw [if_pos hlt]
        by_cases hm : modelId ∈ prev
        · rw [if_pos hm]; exact h
        · rw [if_neg hm]; simpa using Nat.succ_le_of_lt hlt
      · rw [if_neg hlt]; exact h
  | selectAll filteredModels =>
    exact handleSelectAllFilteredModels_length_le prev filteredModels h
  | deselectAll filteredModels =>
    simp only [applySelectionOp, handleDeselectAllFilteredModels]
    induction filteredModels generalizing prev with
    | nil => exact h
    | cons m ms ih =>
      simp only [List.foldl_cons]
      exact ih _ (le_trans (List.erase_sublist m.id prev).length_le h)

/-- Small concrete aggregator catalog used by witnesses. -/
def exCatalog : List OpenRouterApiModel :=
  [{ id := "a", name := "Model A", context_length := 1000 },
   { id := "b", name := "Model B", context_length := 2000 },
   { id := "c", name := "Model C", context_length := 3000 }]

/-- C1: `calculateActiveModels` always begins with the fixed default Google
models regardless of the selection; the remaining entries are exactly the
catalog entries whose id is selected, in catalog order, truncated to the
selectable cap of 20; and the result depends only on the membership of the
selected-id set (determinism over the set abstraction, with purity by
construction). -/
theorem calculateActiveModels_spec (selectedIds : List String)
    (catalog : List OpenRouterApiModel) :
    (calculateActiveModels selectedIds catalog).take DEFAULT_GOOGLE_MODELS.length =
      DEFAULT_GOOGLE_MODELS ∧
    (calculateActiveModels selectedIds catalog).drop DEFAULT_GOOGLE_MODELS.length =
      ((catalog.filter fun model => model.id ∈ selectedIds).map toActiveModel).take
        MAX_SELECTABLE_OPENROUTER_MODELS ∧
    ((calculateActiveModels selectedIds catalog).drop DEFAULT_GOOGLE_MODELS.length).length ≤
      MAX_SELECTABLE_OPENROUTER_MODELS ∧
    (∀ selectedIds' : List String, (∀ id, id ∈ selectedIds ↔ id ∈ selectedIds') →
      calculateActiveModels selectedIds catalog =
        calculateActiveModels selectedIds' catalog) := by
  refine ⟨?_, ?_, ?_, ?_⟩
  · simp only [calculateActiveModels]
    exact List.take_left _ _
  · simp only [calculateActiveModels, toActiveModel]
    exact List.drop_left _ _
  · simp only [calculateActiveModels]
    rw [List.drop_left]
    exact le_trans (List.length_take_le _ _) le_rfl
  · intro selectedIds' hmem
    simp only [calculateActiveModels]
    have hfilter : (catalog.filter fun model => model.id ∈ selectedIds) =
        catalog.filter fun model => model.id ∈ selectedIds' :=
      List.filter_congr fun model _ => decide_eq_decide.mpr (hmem model.id)
    rw [hfilter]

/-- Witness for C1 at a concrete selection and catalog, including the
membership-extensionality conjunct at two orderings of the same set. -/
theorem calculateActiveModels_spec_witness :
    (calculateActiveModels ["b", "a"] exCatalog).take DEFAULT_GOOGLE_MODELS.length =
      DEFAULT_GOOGLE_MODELS ∧
    calculateActiveModels ["b", "a"] exCatalog =
      calculateActiveModels ["a", "b"] exCatalog := by
  have h := calculateActiveModels_spec ["b", "a"] exCatalog
  refine ⟨h.1, h.2.2.2 ["a", "b"] ?_⟩
  intro id
  simp only [List.mem_cons, List.not_mem_nil, or_false]
  tauto

/-- C4: starting from a selection of at most 20 ids, any sequence of
selection actions (single toggles, select-all-filtered, deselect-all-filtered)
keeps the selection size at most 20; and a toggle-on when the selection
already holds 20 ids returns the previous selection unchanged (a no-op, not a
truncation). -/
theorem selection_cap_spec (sel : List String) (ops : List SelectionOp)
    (h : sel.length ≤ MAX_SELECTABLE_OPENROUTER_MODELS) :
    (applySelectionOps sel ops).length ≤ MAX_SELECTABLE_OPENROUTER_MODELS ∧
    (sel.length = MAX_SELECTABLE_OPENROUTER_MODELS →
      ∀ modelId, handleModelSelectionChange sel modelId true = sel) := by
  constructor
  · unfold applySelectionOps
    induction ops generalizing sel with
    | nil => exact h
    | cons op ops ih =>
      simp only [List.foldl_cons]
      exact ih _ (applySelectionOp_length_le sel op h)
  · intro hfull modelId
    simp [handleModelSelectionChange, hfull]

/-- A concrete selection holding exactly 20 model ids. -/
def exFullSelection : List String :=
  ["m01", "m02", "m03", "m04", "m05", "m06", "m07", "m08", "m09", "m10",
   "m11", "m12", "m13", "m14", "m15", "m16", "m17", "m18", "m19", "m20"]

/-- Witness for C4 at a full 20-element selection: the cap survives a
sequence of actions, and a 21st toggle-on is rejected as a no-op. -/
theorem selection_cap_spec_witness :
    (applySelectionOps exFullSelection
      [SelectionOp.change "extra" true, SelectionOp.selectAll exCatalog,
       SelectionOp.change "m01" false]).length ≤ MAX_SELECTABLE_OPENROUTER_MODELS ∧
    (exFullSelection.length = MAX_SELECTABLE_OPENROUTER_MODELS →
      ∀ modelId, handleModelSelectionChange exFullSelection modelId true =
        exFullSelection) :=
  selection_cap_spec exFullSelection
    [SelectionOp.change "extra" true, SelectionOp.selectAll exCatalog,
     SelectionOp.change "m01" false] (by decide)

-- Session store (chat-interface.tsx lines 231-359 and the handleSend
-- updaters at lines 904-1048).  `Date.now()` and the generated random ids
-- are passed in as parameters.

/-- The session-store state: the session list and the active-session
pointer. -/
structure ChatState where
  sessions : List ChatSession
  activeSessionId : Option String
deriving DecidableEq, Repr

/-- `generateSessionName(firstMessageText)`: empty text falls back to the
default name; otherwise the leading 30 characters, with an ellipsis when
the truncation bound was hit. -/
def generateSessionName (firstMessageText : String) : String :=
  if firstMessageText = "" then DEFAULT_SESSION_NAME
  else
    let name := jsSubstring firstMessageText SESSION_NAME_TRUNCATE_LENGTH
    if name.data.length = SESSION_NAME_TRUNCATE_LENGTH then name ++ "..." else name

/-- The fresh session record built by `createNewSession`. -/
def mkNewSession (newSessionId : String) (now : Nat) : ChatSession :=
  { id := newSessionId, name := DEFAULT_SESSION_NAME, messages := [],
    createdAt := now, lastModified := now, totalCost := 0,
    modelId := none, folderId := none, isBookmarked := false, tags := [] }

/-- `createNewSession`: prepends a fresh empty session and makes it active. -/
def createNewSession (st : ChatState) (newSessionId : String) (now : Nat) : ChatState :=
  { sessions := mkNewSession newSessionId now :: st.sessions,
    activeSessionId := some newSessionId }

/-- `deleteSession(sessionIdToDelete)`: filter the session out; when it was
active, activate the first remaining session, or create a fresh one when
none remain. -/
def deleteSession (st : ChatState) (sessionIdToDelete : String)
    (freshSessionId : String) (now : Nat) : ChatState :=
  let updatedSessions := st.sessions.filter fun session => session.id ≠ sessionIdToDelete
  if st.activeSessionId = some sessionIdToDelete then
    match updatedSessions with
    | [] =>
        createNewSession { sessions := updatedSessions, activeSessionId := none }
          freshSessionId now
    | first :: rest =>
        { sessions := first :: rest, activeSessionId := some first.id }
  else
    { st with sessions := updatedSessions }

/-- The user `Message` built in `handleSend`. -/
def mkUserMessage (userMessageId : String) (userMessageText : String)
    (timestamp : Nat) (userMessageFile : Option MsgFile) : Message :=
  { id := userMessageId, sender := Sender.user, text := userMessageText,
    file := userMessageFile, cost := none, timestamp := timestamp,
    modelId := none, isError := false, thinkingSteps := none }

/-- The initial `thinkingSteps` of the placeholder, by provider. -/
def initialThinkingSteps (p : ModelProvider) : List String :=
  match p with
  | ModelProvider.openrouter => ["Preparing request for OpenRouter..."]
  | ModelProvider.google => ["Preparing request for Google AI..."]

/-- The placeholder "thinking" `Message` built in `handleSend`. -/
def mkThinkingMessage (thinkingMsgId : String) (timestamp : Nat)
    (selectedModel : AIModelInfo) : Message :=
  { id := thinkingMsgId, sender := Sender.ai, text := "Thinking...",
    file := none, cost := none, timestamp := timestamp + 1,
    modelId := some selectedModel.id, isError := false,
    thinkingSteps := some (initialThinkingSteps selectedModel.provider) }

/-- The spec's `appendUserTurn` (the first `setChatSessions` updater of
`handleSend`, lines 941-959): appends the user message and the placeholder
to the active session, touches `lastModified`, derives the name on a first
turn, and records the last-used model. -/
def appendUserTurn (sessions : List ChatSession) (activeSessionId : String)
    (userMessage thinkingMessage : Message) (timestamp : Nat)
    (selectedModelId : String) : List ChatSession :=
  sessions.map fun session =>
    if session.id = activeSessionId then
      { session with
        messages := session.messages ++ [userMessage, thinkingMessage],
        lastModified := timestamp,
        name := if session.name = DEFAULT_SESSION_NAME ∧ session.messages.isEmpty then
            generateSessionName userMessage.text
          else session.name,
        modelId := some selectedModelId }
    else session

/-- The final AI `Message` built on a successful response. -/
def mkAiMessage (newMessageId : String) (responseText : String)
    (calculatedCost : ℚ) (now : Nat) (selectedModelId : String) : Message :=
  { id := newMessageId, sender := Sender.ai, text := responseText,
    file := none, cost := some calculatedCost, timestamp := now,
    modelId := some selectedModelId, isError := false, thinkingSteps := none }

/-- The spec's `resolveTurn` with a success outcome (the success
`setChatSessions` updater of `handleSend`, lines 997-1013): drops the
placeholder, appends the final AI message, and adds the cost to the
session's running total. -/
def resolveTurnSuccess (sessions : List ChatSession) (activeSessionId : String)
    (thinkingMsgId newMessageId responseText : String) (calculatedCost : ℚ)
    (selectedModelId : String) (now : Nat) : List ChatSession :=
  sessions.map fun session =>
    if session.id = activeSessionId then
      { session with
        messages := (session.messages.filter fun msg => msg.id ≠ thinkingMsgId) ++
          [mkAiMessage newMessageId responseText calculatedCost now selectedModelId],
        lastModified := now,
        totalCost := session.totalCost + calculatedCost }
    else session

/-- The error AI `Message` built on a failed response (cost 0, `isError`). -/
def mkErrorAiMessage (newMessageId : String) (errorMessage : String)
    (errorTimestamp : Nat) (selectedModelId : String) : Message :=
  { id := newMessageId, sender := Sender.ai, text := "Error: " ++ errorMessage,
    file := none, cost := some 0, timestamp := errorTimestamp,
    modelId := some selectedModelId, isError := true, thinkingSteps := none }

/-- The spec's `resolveTurn` with a failure outcome (the catch-branch
`setChatSessions` updater of `handleSend`, lines 1027-1042): drops the
placeholder and appends the error message; `totalCost` is not touched. -/
def resolveTurnFailure (sessions : List ChatSession) (activeSessionId : String)
    (thinkingMsgId newMessageId errorMessage : String) (selectedModelId : String)
    (errorTimestamp : Nat) : List ChatSession :=
  sessions.map fun session =>
    if session.id = activeSessionId then
      { session with
        messages := (session.messages.filter fun msg => msg.id ≠ thinkingMsgId) ++
          [mkErrorAiMessage newMessageId errorMessage errorTimestamp selectedModelId],
        lastModified := errorTimestamp }
    else session

lemma filter_ne_id_eq_self {msgs : List Message} {x : String}
    (h : x ∉ msgs.map Message.id) :
    (msgs.filter fun msg => msg.id ≠ x) = msgs := by
  apply List.filter_eq_self.mpr
  intro m hm
  simp only [ne_eq, decide_not, Bool.not_eq_true', decide_eq_false_iff_not]
  intro he
  exact h (he ▸ List.mem_map_of_mem Message.id hm)

/-- C2: appending a user turn (user message + placeholder) to the active
session and then resolving it with a success outcome adds exactly the
calculated cost to that session's `totalCost`, keeps the message count equal
to the post-append count, removes the placeholder id from the session, and
appends the final AI message in the placeholder's position at the end of the
turn sequence. -/
theorem appendUserTurn_resolveTurnSuccess_spec
    (sessions : List ChatSession) (s : ChatSession)
    (activeSessionId userMessageId thinkingMsgId newMessageId : String)
    (userMessageText responseText : String) (userMessageFile : Option MsgFile)
    (selectedModel : AIModelInfo) (calculatedCost : ℚ) (timestamp now : Nat)
    (hs : s ∈ sessions) (hid : s.id = activeSessionId)
    (hfresh : thinkingMsgId ∉ s.messages.map Message.id)
    (huser : userMessageId ≠ thinkingMsgId)
    (hnew : newMessageId ≠ thinkingMsgId) :
    ∃ s1 ∈ appendUserTurn sessions activeSessionId
        (mkUserMessage userMessageId userMessageText timestamp userMessageFile)
        (mkThinkingMessage thinkingMsgId timestamp selectedModel)
        timestamp selectedModel.id,
      ∃ s2 ∈ resolveTurnSuccess
          (appendUserTurn sessions activeSessionId
            (mkUserMessage userMessageId userMessageText timestamp userMessageFile)
            (mkThinkingMessage thinkingMsgId timestamp selectedModel)
            timestamp selectedModel.id)
          activeSessionId thinkingMsgId newMessageId responseText calculatedCost
          selectedModel.id now,
        s1.id = s.id ∧ s2.id = s.id ∧
        s1.messages = s.messages ++
          [mkUserMessage userMessageId userMessageText timestamp userMessageFile,
           mkThinkingMessage thinkingMsgId timestamp selectedModel] ∧
        s1.totalCost = s.totalCost ∧
        s2.totalCost = s1.totalCost + calculatedCost ∧
        s2.messages.length = s1.messages.length ∧
        thinkingMsgId ∉ s2.messages.map Message.id ∧
        s2.messages = s.messages ++
          [mkUserMessage userMessageId userMessageText timestamp userMessageFile,
           mkAiMessage newMessageId responseText calculatedCost now selectedModel.id] := by
  classical
  set u := mkUserMessage userMessageId userMessageText timestamp userMessageFile with hu
  set t := mkThinkingMessage thinkingMsgId timestamp selectedModel with ht
  set fApp : ChatSession → ChatSession := fun session =>
    if session.id = activeSessionId then
      { session with
        messages := session.messages ++ [u, t],
        lastModified := timestamp,
        name := if session.name = DEFAULT_SESSION_NAME ∧ session.messages.isEmpty then
            generateSessionName u.text
          else session.name,
        modelId := some selectedModel.id }
    else session with hfApp
  set gRes : ChatSession → ChatSession := fun session =>
    if session.id = activeSessionId then
      { session with
        messages := (session.messages.filter fun msg => msg.id ≠ thinkingMsgId) ++
          [mkAiMessage newMessageId responseText calculatedCost now selectedModel.id],
        lastModified := now,
        totalCost := session.totalCost + calculatedCost }
    else session with hgRes
  have happ : appendUserTurn sessions activeSessionId u t timestamp selectedModel.id =
      sessions.map fApp := rfl
  have hres : resolveTurnSuccess (sessions.map fApp) activeSessionId thinkingMsgId
      newMessageId responseText calculatedCost selectedModel.id now =
      (sessions.map fApp).map gRes := rfl
  have hfs : fApp s = { s with
      messages := s.messages ++ [u, t],
      lastModified := timestamp,
      name := if s.name = DEFAULT_SESSION_NAME ∧ s.messages.isEmpty then
          generateSessionName u.text
        else s.name,
      modelId := some selectedModel.id } := by
    rw [hfApp]; simp only [hid, if_true, if_pos rfl]
  have hfilter : ((s.messages ++ [u, t]).filter fun msg => msg.id ≠ thinkingMsgId) =
      s.messages ++ [u] := by
    rw [List.filter_append, filter_ne_id_eq_self hfresh]
    congr 1
    simp [hu, ht, mkUserMessage, mkThinkingMessage, huser]
  have hgfs : gRes (fApp s) = { s with
      messages := s.messages ++
        [u, mkAiMessage newMessageId responseText calculatedCost now selectedModel.id],
      lastModified := now,
      name := if s.name = DEFAULT_SESSION_NAME ∧ s.messages.isEmpty then
          generateSessionName u.text
        else s.name,
      modelId := some selectedModel.id,
      totalCost := s.totalCost + calculatedCost } := by
    rw [hfs, hgRes]
    simp only [hid, if_pos rfl]
    rw [hfilter]
    simp
  refine ⟨fApp s, ?_, gRes (fApp s), ?_, ?_, ?_, ?_, ?_, ?_, ?_, ?_, ?_⟩
  · rw [happ]; exact List.mem_map_of_mem fApp hs
  · rw [happ, hres]
    exact List.mem_map_of_mem gRes (List.mem_map_of_mem fApp hs)
  · rw [hfs]
  · rw [hgfs]
  · rw [hfs]
  · rw [hfs]
  · rw [hgfs, hfs]
  · rw [hgfs, hfs]; simp
  · rw [hgfs]
    simp only [List.map_append]
    intro hmem
    rcases List.mem_append.mp hmem with hl | hr
    · exact hfresh hl
    · simp only [List.map_cons, List.map_nil, List.mem_cons, List.not_mem_nil,
        or_false, hu, mkUserMessage, mkAiMessage] at hr
      rcases hr with h1 | h2
      · exact huser h1.symm
      · exact hnew h2.symm
  · rw [hgfs]

/-- C3: resolving a pending turn with a failure outcome leaves every
session's `totalCost` unchanged (so `totalCost` only ever accumulates costs
of successful turns), and the message that replaces the placeholder in the
active session is the error message, which is marked `isError` and carries
cost 0. -/
theorem resolveTurnFailure_spec
    (sessions : List ChatSession) (s : ChatSession)
    (activeSessionId thinkingMsgId newMessageId errorMessage selectedModelId : String)
    (errorTimestamp : Nat)
    (hs : s ∈ sessions) (hid : s.id = activeSessionId) :
    (resolveTurnFailure sessions activeSessionId thinkingMsgId newMessageId
        errorMessage selectedModelId errorTimestamp).map ChatSession.totalCost =
      sessions.map ChatSession.totalCost ∧
    (mkErrorAiMessage newMessageId errorMessage errorTimestamp selectedModelId).isError =
      true ∧
    (mkErrorAiMessage newMessageId errorMessage errorTimestamp selectedModelId).cost =
      some 0 ∧
    ∃ s2 ∈ resolveTurnFailure sessions activeSessionId thinkingMsgId newMessageId
        errorMessage selectedModelId errorTimestamp,
      s2.id = s.id ∧ s2.totalCost = s.totalCost ∧
      s2.messages = (s.messages.filter fun msg => msg.id ≠ thinkingMsgId) ++
        [mkErrorAiMessage newMessageId errorMessage errorTimestamp selectedModelId] := by
  classical
  refine ⟨?_, rfl, rfl, ?_⟩
  · unfold resolveTurnFailure
    rw [List.map_map]
    apply List.map_congr_left
    intro a _
    by_cases h : a.id = activeSessionId <;> simp [h]
  · refine ⟨_, List.mem_map_of_mem _ hs, ?_⟩
    simp only [hid, if_pos rfl]
    exact ⟨rfl, rfl, rfl⟩

-- Concrete sessions used by witnesses and counterexamples.

def exSessionA : ChatSession :=
  { id := "A", name := "Alpha", messages := [], createdAt := 0, lastModified := 10,
    totalCost := 0, modelId := none, folderId := none, isBookmarked := false, tags := [] }

def exSessionB : ChatSession :=
  { id := "B", name := "Beta", messages := [], createdAt := 0, lastModified := 2,
    totalCost := 0, modelId := none, folderId := none, isBookmarked := false,
    tags := ["work"] }

def exSessionC : ChatSession :=
  { id := "C", name := "Gamma", messages := [], createdAt := 0, lastModified := 5,
    totalCost := 0, modelId := none, folderId := none, isBookmarked := false, tags := [] }

def exModel : AIModelInfo :=
  { id := "googleai/gemini-2.0-flash", name := "Google Gemini 2.0 Flash",
    provider := ModelProvider.google, context_length := none }

/-- Witness for C2 at a concrete one-session store: the success resolution
adds exactly the cost and keeps the post-append message count. -/
theorem appendUserTurn_resolveTurnSuccess_spec_witness :
    ∃ s2 ∈ resolveTurnSuccess
        (appendUserTurn [exSessionA] "A" (mkUserMessage "u1" "hello" 5 none)
          (mkThinkingMessage "t1" 5 exModel) 5 exModel.id)
        "A" "t1" "a1" "hi there" 0.0005 exModel.id 7,
      s2.totalCost = exSessionA.totalCost + 0.0005 ∧
      s2.messages.length = exSessionA.messages.length + 2 ∧
      "t1" ∉ s2.messages.map Message.id := by
  obtain ⟨s1, hm1, s2, hm2, hid1, hid2, hmsg1, hcost1, hcost2, hlen, hnot, hmsg2⟩ :=
    appendUserTurn_resolveTurnSuccess_spec [exSessionA] exSessionA "A" "u1" "t1" "a1"
      "hello" "hi there" none exModel 0.0005 5 7 (by simp) rfl (by decide) (by decide)
      (by decide)
  refine ⟨s2, hm2, ?_, ?_, hnot⟩
  · rw [hcost2, hcost1]
  · rw [hlen, hmsg1]
    simp

/-- Witness for C3 at a concrete one-session store: failure resolution
preserves the cost column and the active session's total. -/
theorem resolveTurnFailure_spec_witness :
    (resolveTurnFailure [exSessionA] "A" "t1" "e1" "boom"
        "googleai/gemini-2.0-flash" 99).map ChatSession.totalCost =
      [exSessionA].map ChatSession.totalCost ∧
    ∃ s2 ∈ resolveTurnFailure [exSessionA] "A" "t1" "e1" "boom"
        "googleai/gemini-2.0-flash" 99,
      s2.totalCost = exSessionA.totalCost := by
  obtain ⟨h1, -, -, s2, hm, -, hc, -⟩ :=
    resolveTurnFailure_spec [exSessionA] exSessionA "A" "t1" "e1" "boom"
      "googleai/gemini-2.0-flash" 99 (by simp) rfl
  exact ⟨h1, s2, hm, hc⟩

/-- Counterexample to C5 as stated: deleting the active session "A" from
the store `[A, B, C]` (with C modified most recently among the remainder)
activates "B", the first remaining session in stored order — not the
most-recently-modified remaining session "C". -/
theorem deleteSession_most_recent_cex :
    ∃ s ∈ (deleteSession ⟨[exSessionA, exSessionB, exSessionC], some "A"⟩
        "A" "fresh" 100).sessions,
      (∀ t ∈ (deleteSession ⟨[exSessionA, exSessionB, exSessionC], some "A"⟩
          "A" "fresh" 100).sessions, t.lastModified ≤ s.lastModified) ∧
      (deleteSession ⟨[exSessionA, exSessionB, exSessionC], some "A"⟩
          "A" "fresh" 100).activeSessionId ≠ some s.id := by
  decide

/-- C5 (amended): `deleteSession(id)` removes exactly the sessions with that
id; when the deleted session was active and others remain, the first
remaining session in stored list order becomes active and is a member of the
remaining set; when none remain, exactly one fresh empty session is created
and becomes active. -/
theorem deleteSession_spec_amended (st : ChatState)
    (sessionIdToDelete freshSessionId : String) (now : Nat)
    (hact : st.activeSessionId = some sessionIdToDelete)
    (hfreshne : freshSessionId ≠ sessionIdToDelete) :
    (∀ s ∈ (deleteSession st sessionIdToDelete freshSessionId now).sessions,
      s.id ≠ sessionIdToDelete) ∧
    (∀ s ∈ st.sessions, s.id ≠ sessionIdToDelete →
      s ∈ (deleteSession st sessionIdToDelete freshSessionId now).sessions) ∧
    (st.sessions.filter (fun session => session.id ≠ sessionIdToDelete) = [] →
      (deleteSession st sessionIdToDelete freshSessionId now).sessions =
        [mkNewSession freshSessionId now] ∧
      (deleteSession st sessionIdToDelete freshSessionId now).activeSessionId =
        some freshSessionId ∧
      (mkNewSession freshSessionId now).messages = [] ∧
      (mkNewSession freshSessionId now).totalCost = 0) ∧
    (∀ first rest,
      st.sessions.filter (fun session => session.id ≠ sessionIdToDelete) =
          first :: rest →
      (deleteSession st sessionIdToDelete freshSessionId now).sessions =
        first :: rest ∧
      (deleteSession st sessionIdToDelete freshSessionId now).activeSessionId =
        some first.id ∧
      first ∈ (deleteSession st sessionIdToDelete freshSessionId now).sessions) := by
  classical
  cases hfil : st.sessions.filter (fun session => session.id ≠ sessionIdToDelete) with
  | nil =>
    have hres : deleteSession st sessionIdToDelete freshSessionId now =
        { sessions := [mkNewSession freshSessionId now],
          activeSessionId := some freshSessionId } := by
      simp only [deleteSession]
      rw [if_pos hact, hfil]
      rfl
    refine ⟨?_, ?_, ?_, ?_⟩
    · intro s hsm
      rw [hres] at hsm
      simp only [List.mem_cons, List.not_mem_nil, or_false] at hsm
      rw [hsm]
      exact hfreshne
    · intro s hsm hne
      exfalso
      have : s ∈ st.sessions.filter (fun session => session.id ≠ sessionIdToDelete) :=
        List.mem_filter.mpr ⟨hsm, by simpa using hne⟩
      rw [hfil] at this
      exact List.not_mem_nil s this
    · intro _
      exact ⟨by rw [hres], by rw [hres], rfl, rfl⟩
    · intro first rest hcons
      exact absurd hcons (by simp)
  | cons m ms =>
    have hres : deleteSession st sessionIdToDelete freshSessionId now =
        { sessions := m :: ms, activeSessionId := some m.id } := by
      simp only [deleteSession]
      rw [if_pos hact, hfil]
    refine ⟨?_, ?_, ?_, ?_⟩
    · intro s hsm
      rw [hres] at hsm
      have : s ∈ st.sessions.filter (fun session => session.id ≠ sessionIdToDelete) := by
        rw [hfil]; exact hsm
      simpa using (List.mem_filter.mp this).2
    · intro s hsm hne
      rw [hres]
      have : s ∈ st.sessions.filter (fun session => session.id ≠ sessionIdToDelete) :=
        List.mem_filter.mpr ⟨hsm, by simpa using hne⟩
      rw [hfil] at this
      exact this
    · intro hnil
      exact absurd hnil (by simp)
    · intro first rest hcons
      obtain ⟨h1, h2⟩ := List.cons.inj hcons
      subst h1
      subst h2
      exact ⟨by rw [hres], by rw [hres], by rw [hres]; exact List.mem_cons_self m ms⟩

/-- Witness for C5 (amended) at a concrete store: deleting active "A" from
`[A, B]` activates and keeps exactly `B`. -/
theorem deleteSession_spec_amended_witness :
    (deleteSession ⟨[exSessionA, exSessionB], some "A"⟩ "A" "fresh" 100).sessions =
      [exSessionB] ∧
    (deleteSession ⟨[exSessionA, exSessionB], some "A"⟩ "A" "fresh" 100).activeSessionId =
      some "B" := by
  obtain ⟨-, -, -, h4⟩ :=
    deleteSession_spec_amended ⟨[exSessionA, exSessionB], some "A"⟩ "A" "fresh" 100
      rfl (by decide)
  obtain ⟨h1, h2, -⟩ := h4 exSessionB [] (by decide)
  exact ⟨h1, h2⟩

/-- C10: deleting a session that is not the active one leaves the
active-session pointer unchanged, keeps every other session record
unchanged and in order, and removes exactly the sessions carrying the given
id. -/
theorem deleteSession_nonactive_frame (st : ChatState)
    (sessionIdToDelete freshSessionId : String) (now : Nat)
    (hact : st.activeSessionId ≠ some sessionIdToDelete) :
    (deleteSession st sessionIdToDelete freshSessionId now).activeSessionId =
      st.activeSessionId ∧
    (∀ s ∈ st.sessions, s.id ≠ sessionIdToDelete →
      s ∈ (deleteSession st sessionIdToDelete freshSessionId now).sessions) ∧
    (∀ s ∈ (deleteSession st sessionIdToDelete freshSessionId now).sessions,
      s ∈ st.sessions ∧ s.id ≠ sessionIdToDelete) ∧
    (deleteSession st sessionIdToDelete freshSessionId now).sessions.Sublist
      st.sessions ∧
    (deleteSession st sessionIdToDelete freshSessionId now).sessions =
      st.sessions.filter (fun session => session.id ≠ sessionIdToDelete) := by
  classical
  have hres : deleteSession st sessionIdToDelete freshSessionId now =
      { st with sessions :=
          st.sessions.filter (fun session => session.id ≠ sessionIdToDelete) } := by
    unfold deleteSession
    rw [if_neg hact]
  rw [hres]
  refine ⟨rfl, ?_, ?_, ?_, rfl⟩
  · intro s hsm hne
    exact List.mem_filter.mpr ⟨hsm, by simpa using hne⟩
  · intro s hsm
    have := List.mem_filter.mp hsm
    exact ⟨this.1, by simpa using this.2⟩
  · exact List.filter_sublist _

/-- Witness for C10 at a concrete store: deleting non-active "B" from
`[A, B]` keeps "A" active and keeps exactly `A`. -/
theorem deleteSession_nonactive_frame_witness :
    (deleteSession ⟨[exSessionA, exSessionB], some "A"⟩ "B" "fresh" 50).activeSessionId =
      some "A" ∧
    (deleteSession ⟨[exSessionA, exSessionB], some "A"⟩ "B" "fresh" 50).sessions =
      [exSessionA] := by
  obtain ⟨h1, -, -, -, h5⟩ :=
    deleteSession_nonactive_frame ⟨[exSessionA, exSessionB], some "A"⟩ "B" "fresh" 50
      (by decide)
  refine ⟨h1, ?_⟩
  rw [h5]
  decide

-- Prompt router (smart-assistant-prompting.ts, latest revision, lines 38-234).
-- The two remote boundaries (the aggregator chat-completions fetch together
-- with its response processing, and the Genkit generate call together with
-- its text extraction) are modelled as environment-supplied outcomes; the
-- router records which boundary it crossed.

/-- `SmartAssistantPromptingInput`. -/
structure SmartAssistantPromptingInput where
  modelId : String
  prompt : String
  fileDataUri : Option String
  apiKey : Option String

/-- `SmartAssistantPromptingOutput`. -/
structure SmartAssistantPromptingOutput where
  response : String
deriving DecidableEq, Repr

/-- One network call the flow can make. -/
inductive NetworkCall where
  | openRouterChatCompletion
  | genkitGenerate
deriving DecidableEq, Repr

/-- Environment of one flow run: the server-side env API key and the
outcomes of the two remote boundaries (error message or response text). -/
structure FlowEnv where
  envOpenRouterApiKey : Option String
  openRouterOutcome : Except String String
  genkitOutcome : Except String String

/-- `modelId.replace(/^openrouter\//, '')`. -/
def stripOpenRouterTag (modelId : String) : String :=
  if jsStartsWith modelId "openrouter/" then ⟨modelId.data.drop 11⟩ else modelId

/-- The top-level catch of the flow rewraps every thrown error message. -/
def serverWrap (message : String) : String :=
  "Server-side error in smart assistant: " ++ message

/-- `smartAssistantPrompting`, returning the settled result and the list of
network calls issued, in order.  Input validation succeeds for every
well-typed input, so it is a no-op here. -/
def smartAssistantPrompting (input : SmartAssistantPromptingInput)
    (env : FlowEnv) : Except String SmartAssistantPromptingOutput × List NetworkCall :=
  if jsStartsWith input.modelId "openrouter/" then
    if input.fileDataUri.isSome then
      (Except.error (serverWrap "File input is not supported for OpenRouter models."), [])
    else
      let openRouterModelId := stripOpenRouterTag input.modelId
      let apiKey := jsOrString input.apiKey (jsOrString env.envOpenRouterApiKey "")
      if apiKey = "" then
        (Except.error (serverWrap
          ("OpenRouter API key is missing. Please set it in the Settings tab " ++
           "or configure the OPENROUTER_API_KEY environment variable.")), [])
      else
        match env.openRouterOutcome with
        | Except.ok content =>
            (Except.ok { response := content }, [NetworkCall.openRouterChatCompletion])
        | Except.error e =>
            (Except.error (serverWrap
              ("Failed during OpenRouter interaction for model " ++
               openRouterModelId ++ ": " ++ e)),
             [NetworkCall.openRouterChatCompletion])
  else if jsStartsWith input.modelId "googleai/" then
    match env.genkitOutcome with
    | Except.ok responseText =>
        (Except.ok { response := responseText }, [NetworkCall.genkitGenerate])
    | Except.error e =>
        (Except.error (serverWrap
          ("Failed during Google AI interaction for model " ++ input.modelId ++
           ": " ++ e)),
         [NetworkCall.genkitGenerate])
  else
    (Except.error (serverWrap
      ("Unsupported model provider for ID: " ++ input.modelId ++
       ". Must start with \"googleai/\" or \"openrouter/\".")), [])

/-- C6: a model id starting with neither recognized provider tag makes the
flow fail with the unsupported-provider error, and no network call (neither
the OpenRouter fetch nor the Genkit generate) is issued. -/
theorem smartAssistantPrompting_unsupported_provider
    (input : SmartAssistantPromptingInput) (env : FlowEnv)
    (h1 : jsStartsWith input.modelId "openrouter/" = false)
    (h2 : jsStartsWith input.modelId "googleai/" = false) :
    (smartAssistantPrompting input env).1 =
      Except.error (serverWrap
        ("Unsupported model provider for ID: " ++ input.modelId ++
         ". Must start with \"googleai/\" or \"openrouter/\".")) ∧
    (smartAssistantPrompting input env).2 = [] := by
  unfold smartAssistantPrompting
  rw [h1, h2]
  exact ⟨rfl, rfl⟩

/-- Witness for C6 at the concrete unprefixed id `mistral-7b`: the flow
settles with the unsupported-provider error and issues no network call,
even though both remote boundaries stand ready to answer. -/
theorem smartAssistantPrompting_unsupported_provider_witness :
    (smartAssistantPrompting
        { modelId := "mistral-7b", prompt := "hi", fileDataUri := none,
          apiKey := some "sk-key" }
        { envOpenRouterApiKey := some "sk-env",
          openRouterOutcome := Except.ok "unreachable",
          genkitOutcome := Except.ok "unreachable" }).1 =
      Except.error (serverWrap
        ("Unsupported model provider for ID: " ++ "mistral-7b" ++
         ". Must start with \"googleai/\" or \"openrouter/\".")) ∧
    (smartAssistantPrompting
        { modelId := "mistral-7b", prompt := "hi", fileDataUri := none,
          apiKey := some "sk-key" }
        { envOpenRouterApiKey := some "sk-env",
          openRouterOutcome := Except.ok "unreachable",
          genkitOutcome := Except.ok "unreachable" }).2 = [] :=
  smartAssistantPrompting_unsupported_provider _ _ (by decide) (by decide)

-- Local persistence adapter (chat-interface.tsx lines 242-278) and the
-- boot-time normalization (lines 604-616).  `JSON.stringify`/`JSON.parse`
-- round JSON-safe values exactly, so a stored value is modelled
-- structurally; every field of a parsed object may be missing, hence the
-- `Option` fields of the stored shapes.

/-- A message as it may come back from `JSON.parse`. -/
structure StoredMessage where
  id : Option String
  sender : Option Sender
  text : Option String
  file : Option MsgFile
  cost : Option ℚ
  timestamp : Option Nat
  modelId : Option String
  isError : Option Bool
  thinkingSteps : Option (List String)
deriving DecidableEq, Repr

/-- A session as it may come back from `JSON.parse`. -/
structure StoredSession where
  id : Option String
  name : Option String
  messages : Option (List StoredMessage)
  createdAt : Option Nat
  lastModified : Option Nat
  totalCost : Option ℚ
  modelId : Option String
  folderId : Option String
  isBookmarked : Option Bool
  tags : Option (List String)
deriving DecidableEq, Repr

/-- `JSON.stringify` of an in-memory message: every present field is kept;
the `isError` flag is only ever written on error messages. -/
def storeMessage (m : Message) : StoredMessage :=
  { id := some m.id, sender := some m.sender, text := some m.text,
    file := m.file, cost := m.cost, timestamp := some m.timestamp,
    modelId := m.modelId,
    isError := if m.isError then some true else none,
    thinkingSteps := m.thinkingSteps }

/-- `JSON.stringify` of an in-memory session. -/
def storeSession (s : ChatSession) : StoredSession :=
  { id := some s.id, name := some s.name,
    messages := some (s.messages.map storeMessage),
    createdAt := some s.createdAt, lastModified := some s.lastModified,
    totalCost := some s.totalCost, modelId := s.modelId,
    folderId := s.folderId, isBookmarked := some s.isBookmarked,
    tags := some s.tags }

/-- Line 608: `{ ...m, id: m.id ?? generateMessageId() }`; a missing field
of the untyped parsed object reads as its type's absent default.  The fresh
id supply is a parameter (only consulted for messages without an id). -/
def restoreMessage (freshMessageId : String) (m : StoredMessage) : Message :=
  { id := m.id.getD freshMessageId,
    sender := m.sender.getD Sender.ai,
    text := m.text.getD "",
    file := m.file,
    cost := m.cost,
    timestamp := m.timestamp.getD 0,
    modelId := m.modelId,
    isError := m.isError.getD false,
    thinkingSteps := m.thinkingSteps }

/-- Lines 606-616: the per-session boot-time normalization, with JS `||`
fallbacks (`0`, `""` falsy) and the `?? []` on messages. -/
def restoreSession (now : Nat) (freshMessageId : String) (s : StoredSession) :
    ChatSession :=
  { id := s.id.getD "",
    name := jsOrString s.name DEFAULT_SESSION_NAME,
    messages := (s.messages.getD []).map (restoreMessage freshMessageId),
    createdAt := jsOrNat s.createdAt now,
    lastModified := jsOrNat s.lastModified now,
    totalCost := jsOrRat s.totalCost 0,
    modelId := s.modelId,
    folderId := jsOrNull s.folderId,
    isBookmarked := jsOrBool s.isBookmarked false,
    tags := s.tags.getD [] }

/-- The four persisted keys of the browser key-value store. -/
structure LocalStorage where
  chat_sessions : Option (List StoredSession)
  active_chat_session_id : Option String
  openrouter_api_key : Option String
  selected_openrouter_models : Option (List String)
deriving DecidableEq, Repr

/-- `saveToLocalStorage(CHAT_SESSIONS_STORAGE_KEY, sessions)`: a full
serialize-and-persist of the session collection. -/
def saveSessionsToLocalStorage (store : LocalStorage)
    (sessions : List ChatSession) : LocalStorage :=
  { store with chat_sessions := some (sessions.map storeSession) }

/-- `loadFromLocalStorage(CHAT_SESSIONS_STORAGE_KEY, [])` followed by the
boot-time normalization map. -/
def loadSessionsFromLocalStorage (store : LocalStorage) (now : Nat)
    (freshMessageId : String) : List ChatSession :=
  ((store.chat_sessions).getD []).map (restoreSession now freshMessageId)

lemma restoreMessage_storeMessage (freshMessageId : String) (m : Message) :
    restoreMessage freshMessageId (storeMessage m) = m := by
  cases m with
  | mk id sender text file cost timestamp modelId isError thinkingSteps =>
    cases isError <;> rfl

/-- C8: saving a session collection and loading it back through the
boot-time normalization reproduces the collection's session ids, full
message lists (hence message order and ids), `totalCost` values and tags,
for every starting store, wall clock and fresh-id supply. -/
theorem saveLoad_roundTrip (store : LocalStorage) (sessions : List ChatSession)
    (now : Nat) (freshMessageId : String) :
    (loadSessionsFromLocalStorage (saveSessionsToLocalStorage store sessions)
        now freshMessageId).map ChatSession.id = sessions.map ChatSession.id ∧
    (loadSessionsFromLocalStorage (saveSessionsToLocalStorage store sessions)
        now freshMessageId).map ChatSession.messages =
      sessions.map ChatSession.messages ∧
    (loadSessionsFromLocalStorage (saveSessionsToLocalStorage store sessions)
        now freshMessageId).map ChatSession.totalCost =
      sessions.map ChatSession.totalCost ∧
    (loadSessionsFromLocalStorage (saveSessionsToLocalStorage store sessions)
        now freshMessageId).map ChatSession.tags = sessions.map ChatSession.tags := by
  have hload : loadSessionsFromLocalStorage (saveSessionsToLocalStorage store sessions)
      now freshMessageId =
      sessions.map fun s => restoreSession now freshMessageId (storeSession s) := by
    simp [loadSessionsFromLocalStorage, saveSessionsToLocalStorage, List.map_map]
  rw [hload]
  have hid : ∀ s : ChatSession,
      (restoreSession now freshMessageId (storeSession s)).id = s.id := fun s => rfl
  have hmsgs : ∀ s : ChatSession,
      (restoreSession now freshMessageId (storeSession s)).messages = s.messages := by
    intro s
    simp only [restoreSession, storeSession, Option.getD_some, List.map_map]
    have : restoreMessage freshMessageId ∘ storeMessage = id := by
      funext m
      exact restoreMessage_storeMessage freshMessageId m
    rw [this, List.map_id]
  have hcost : ∀ s : ChatSession,
      (restoreSession now freshMessageId (storeSession s)).totalCost = s.totalCost := by
    intro s
    simp only [restoreSession, storeSession, jsOrRat]
    split_ifs with h
    · exact h.symm
    · rfl
  have htags : ∀ s : ChatSession,
      (restoreSession now freshMessageId (storeSession s)).tags = s.tags := fun s => rfl
  refine ⟨?_, ?_, ?_, ?_⟩ <;>
    · rw [List.map_map]
      apply List.map_congr_left
      intro s _
      first
        | exact hid s
        | exact hmsgs s
        | exact hcost s
        | exact htags s

-- Catalog fetch (chat-interface.tsx lines 548-598).  The HTTP boundary is
-- an environment-supplied outcome: either an error message or the parsed
-- `data` array.

/-- The component state that `fetchOpenRouterModels` reads and writes. -/
structure ModelSettingsState where
  allOpenRouterModels : List OpenRouterApiModel
  selectedOpenRouterModelIds : List String
  activeModels : List AIModelInfo
  fetchModelsError : Option String
deriving DecidableEq, Repr

/-- `fetchOpenRouterModels(apiKey)`: empty key or fetch failure collapses the
catalog and the active list to the defaults; success replaces the catalog,
revalidates the selection against it (dropping unknown ids, trimming to the
cap), recomputes the active models, and writes the revalidated selection to
the `selected_openrouter_models` storage key. -/
def fetchOpenRouterModels (apiKey : String)
    (fetchOutcome : Except String (List OpenRouterApiModel))
    (cs : ModelSettingsState) (store : LocalStorage) :
    ModelSettingsState × LocalStorage :=
  if apiKey = "" then
    ({ cs with allOpenRouterModels := [],
               fetchModelsError := some "API Key is required to fetch models.",
               activeModels := DEFAULT_GOOGLE_MODELS }, store)
  else
    match fetchOutcome with
    | Except.error message =>
        ({ cs with fetchModelsError := some ("Error: " ++ message),
                   allOpenRouterModels := [],
                   activeModels := DEFAULT_GOOGLE_MODELS }, store)
    | Except.ok fetchedModels =>
        let validSelectedIds := fetchedModels.foldl
          (fun acc model =>
            if model.id ∈ cs.selectedOpenRouterModelIds ∧ model.id ∉ acc then
              acc ++ [model.id]
            else acc) []
        let limitedValidSelectedIds :=
          validSelectedIds.take MAX_SELECTABLE_OPENROUTER_MODELS
        ({ cs with allOpenRouterModels := fetchedModels,
                   fetchModelsError := none,
                   selectedOpenRouterModelIds := limitedValidSelectedIds,
                   activeModels :=
                     calculateActiveModels limitedValidSelectedIds fetchedModels },
         { store with selected_openrouter_models := some limitedValidSelectedIds })

/-- A concrete starting store for the C9 counterexample. -/
def exStore : LocalStorage :=
  { chat_sessions := none, active_chat_session_id := some "A",
    openrouter_api_key := some "sk-key",
    selected_openrouter_models := some ["a", "b"] }

/-- A concrete starting component state for the C9 counterexample. -/
def exSettings : ModelSettingsState :=
  { allOpenRouterModels := [],
    selectedOpenRouterModelIds := ["a", "b"],
    activeModels := DEFAULT_GOOGLE_MODELS,
    fetchModelsError := none }

/-- Counterexample to C9 as stated: a successful catalog refresh (the
catalog now only lists model "a") makes `fetchOpenRouterModels` itself
overwrite the persisted selected-model-ids key, so not every persisted key
is unchanged after the call. -/
theorem fetchOpenRouterModels_persists_cex :
    (fetchOpenRouterModels "sk-key"
        (Except.ok [{ id := "a", name := "Model A", context_length := 1000 }])
        exSettings exStore).2.selected_openrouter_models ≠
      exStore.selected_openrouter_models := by
  decide

/-- C9 (amended): `fetchOpenRouterModels` never touches the persisted
session collection, active-session id, or API key; on an empty key or a
failed fetch it writes nothing at all; but on a successful fetch it writes
the revalidated (trimmed) selection — which equals the new in-memory
selection — to the selected-model-ids key itself. -/
theorem fetchOpenRouterModels_frame_amended (apiKey : String)
    (fetchOutcome : Except String (List OpenRouterApiModel))
    (cs : ModelSettingsState) (store : LocalStorage) :
    (fetchOpenRouterModels apiKey fetchOutcome cs store).2.chat_sessions =
      store.chat_sessions ∧
    (fetchOpenRouterModels apiKey fetchOutcome cs store).2.active_chat_session_id =
      store.active_chat_session_id ∧
    (fetchOpenRouterModels apiKey fetchOutcome cs store).2.openrouter_api_key =
      store.openrouter_api_key ∧
    (apiKey = "" → (fetchOpenRouterModels apiKey fetchOutcome cs store).2 = store) ∧
    (∀ message, fetchOutcome = Except.error message →
      (fetchOpenRouterModels apiKey fetchOutcome cs store).2 = store) ∧
    (∀ fetchedModels, fetchOutcome = Except.ok fetchedModels → apiKey ≠ "" →
      (fetchOpenRouterModels apiKey fetchOutcome cs store).2.selected_openrouter_models =
        some (fetchOpenRouterModels apiKey fetchOutcome cs
          store).1.selectedOpenRouterModelIds) := by
  by_cases hkey : apiKey = ""
  · refine ⟨?_, ?_, ?_, fun _ => ?_, fun message hm => ?_, fun fetchedModels hm hne => ?_⟩
      <;> simp [fetchOpenRouterModels, hkey]
    exact absurd hkey hne
  · cases fetchOutcome with
    | error message =>
      refine ⟨?_, ?_, ?_, fun h => absurd h hkey, fun m hm => ?_, fun f hf _ => ?_⟩
        <;> simp [fetchOpenRouterModels, hkey]
      exact absurd hf (by simp)
    | ok fetchedModels =>
      refine ⟨?_, ?_, ?_, fun h => absurd h hkey, fun m hm => absurd hm (by simp),
        fun f hf _ => ?_⟩ <;> simp [fetchOpenRouterModels, hkey]

/-- Witness for C9 (amended) at the counterexample's concrete input: the
other three keys survive, and the persisted selection equals the new
in-memory selection. -/
theorem fetchOpenRouterModels_frame_amended_witness :
    (fetchOpenRouterModels "sk-key"
        (Except.ok [{ id := "a", name := "Model A", context_length := 1000 }])
        exSettings exStore).2.chat_sessions = exStore.chat_sessions ∧
    (fetchOpenRouterModels "sk-key"
        (Except.ok [{ id := "a", name := "Model A", context_length := 1000 }])
        exSettings exStore).2.active_chat_session_id =
      exStore.active_chat_session_id ∧
    (fetchOpenRouterModels "sk-key"
        (Except.ok [{ id := "a", name := "Model A", context_length := 1000 }])
        exSettings exStore).2.openrouter_api_key = exStore.openrouter_api_key ∧
    (fetchOpenRouterModels "sk-key"
        (Except.ok [{ id := "a", name := "Model A", context_length := 1000 }])
        exSettings exStore).2.selected_openrouter_models =
      some (fetchOpenRouterModels "sk-key"
        (Except.ok [{ id := "a", name := "Model A", context_length := 1000 }])
        exSettings exStore).1.selectedOpenRouterModelIds := by
  obtain ⟨h1, h2, h3, -, -, h6⟩ :=
    fetchOpenRouterModels_frame_amended "sk-key"
      (Except.ok [{ id := "a", name := "Model A", context_length := 1000 }])
      exSettings exStore
  exact ⟨h1, h2, h3, h6 _ rfl (by decide)⟩
